import Mathlib

/-!
Verification of the Readily questionnaire-answering frontend.

This file gives a shallow embedding, in Lean, of the state-manipulating
logic of the React components under frontend/src/components
(QuestionnairePanel.js, FolderContents.js, MainLayout.js) and of the thin
API client (services/api.js), together with models, written from the
design document, of the backend pieces that are not part of the frontend
sources (batch orchestrator, answer synthesizer, rotation tracker).
Machine state that React keeps in hooks is modelled as explicit record
types; asynchronous API calls are modelled by passing their outcomes
(as Except values) into the embedded handlers, and a JavaScript async
function is split at its await points: the synchronous prefix up to the
first await is one Lean function, the continuation after the await is
another, mirroring the run-to-completion semantics of the event loop.
-/

namespace Readily

/-! ## Data model for QuestionnairePanel

An answer record as stored in the questionAnswers map of
QuestionnairePanel.js.  The component reads the fields answer (the
YES/NO verdict string), confidence, key_evidence and evidence_data; we
model exactly those.  Confidence is a rational number standing for the
JavaScript float. -/

structure Answer where
  answer : String
  confidence : ℚ
  key_evidence : Option String
  evidence_data : Option String
deriving DecidableEq, Repr

/-- The body of a successful POST /api/audit-answers/single response as
consumed by handleAnswerQuestion: a success flag, an optional answer
payload and the from_cache marker. -/
structure GenResponse where
  success : Bool
  answer : Option Answer
  from_cache : Bool
deriving DecidableEq, Repr

/-- The body of a successful evidence lookup (findEvidenceForQuestion):
handleAnswerQuestion only reads its evidence field. -/
structure EvidenceResponse where
  evidence : Option String
deriving DecidableEq, Repr

/-- A question as rendered by QuestionnairePanel: its question_id and the
existingAnswer field attached by handleViewQuestions.  Question ids are
modelled as naturals. -/
structure Question where
  question_id : Nat
  existingAnswer : Option Answer
deriving DecidableEq, Repr

/-- The slice of QuestionnairePanel component state that
handleAnswerQuestion reads and writes: the questionAnswers map (an
association list, newest binding first, mirroring object spread), the
answeringQuestions set (a duplicate-free list) and the error banner. -/
structure PanelState where
  questionAnswers : List (Nat × Answer)
  answeringQuestions : List Nat
  errorMsg : Option String
deriving DecidableEq, Repr

/-- Adding an element to a JavaScript Set: a no-op when already present. -/
def setInsert (x : Nat) (l : List Nat) : List Nat :=
  if x ∈ l then l else x :: l

/-- Set.delete on a JavaScript Set, modelled by filtering the element out. -/
def setErase (x : Nat) (l : List Nat) : List Nat :=
  l.filter (fun y => y ≠ x)

/-- Outcome of one run of handleAnswerQuestion: the final component state
and how many answerAuditQuestion and findEvidenceForQuestion requests the
run issued. -/
structure RunResult where
  state : PanelState
  genCalls : Nat
  evCalls : Nat
deriving DecidableEq, Repr

/-- Outcome of the synchronous prefix of handleAnswerQuestion, up to the
await on Promise.all: the state as of the suspension point, whether the
two API requests were initiated, and the number of requests issued so
far. -/
structure StartResult where
  state : PanelState
  initiated : Bool
  genCalls : Nat
  evCalls : Nat
deriving DecidableEq, Repr

/-- Synchronous prefix of handleAnswerQuestion
(QuestionnairePanel.js lines 764-810).  It returns early when the answer
is already in local state, copies question.existingAnswer into local
state when present, and otherwise marks the question as in flight,
clears the error banner and fires both API requests before suspending.
The finally block of the source runs even on the early returns, so every
non-initiating branch also erases the id from answeringQuestions. -/
def startAnswer (st : PanelState) (q : Question) : StartResult :=
  let qid := q.question_id
  match st.questionAnswers.lookup qid with
  | some _ =>
    { state := { st with answeringQuestions := setErase qid st.answeringQuestions },
      initiated := false, genCalls := 0, evCalls := 0 }
  | none =>
    match q.existingAnswer with
    | some a =>
      { state := { st with
          questionAnswers := (qid, a) :: st.questionAnswers,
          answeringQuestions := setErase qid st.answeringQuestions },
        initiated := false, genCalls := 0, evCalls := 0 }
    | none =>
      { state := { st with
          answeringQuestions := setInsert qid st.answeringQuestions,
          errorMsg := none },
        initiated := true, genCalls := 1, evCalls := 1 }

/-- Continuation of handleAnswerQuestion after the await on Promise.all
(QuestionnairePanel.js lines 805-883).  gen1 and ev1 are the outcomes of
the two parallel requests; when either fails, the catch block retries
both calls individually (outcomes gen2 and ev2), stores whatever answer
the retry produced, and rethrows the original error, which the outer
catch turns into the error banner.  The finally block always erases the
question id from answeringQuestions. -/
def finishAnswer (st : PanelState) (q : Question)
    (gen1 : Except String GenResponse) (ev1 : Except String EvidenceResponse)
    (gen2 : Except String GenResponse) (ev2 : Except String EvidenceResponse) :
    RunResult :=
  let qid := q.question_id
  match gen1, ev1 with
  | Except.ok r, Except.ok e =>
    match r.success, r.answer with
    | true, some a =>
      { state := { st with
          questionAnswers := (qid, { a with evidence_data := e.evidence }) :: st.questionAnswers,
          answeringQuestions := setErase qid st.answeringQuestions },
        genCalls := 0, evCalls := 0 }
    | _, _ =>
      { state := { st with
          errorMsg := some "Failed to answer question: Failed to get answer from API",
          answeringQuestions := setErase qid st.answeringQuestions },
        genCalls := 0, evCalls := 0 }
  | g1, e1 =>
    let msg := match g1 with
      | Except.error m => m
      | Except.ok _ => match e1 with
        | Except.error m => m
        | Except.ok _ => ""
    let answers := match gen2 with
      | Except.ok r2 =>
        match r2.success, r2.answer with
        | true, some a =>
          let ev := match ev2 with
            | Except.ok e2 => e2.evidence
            | Except.error _ => none
          (qid, { a with evidence_data := ev }) :: st.questionAnswers
        | _, _ => st.questionAnswers
      | Except.error _ => st.questionAnswers
    { state := { st with
        questionAnswers := answers,
        errorMsg := some ("Failed to answer question: " ++ msg),
        answeringQuestions := setErase qid st.answeringQuestions },
      genCalls := 1, evCalls := 1 }

/-- One complete run of handleAnswerQuestion for a given schedule of API
outcomes: the synchronous prefix followed, when the requests were
initiated, by the continuation. -/
def handleAnswerQuestion (st : PanelState) (q : Question)
    (gen1 : Except String GenResponse) (ev1 : Except String EvidenceResponse)
    (gen2 : Except String GenResponse) (ev2 : Except String EvidenceResponse) :
    RunResult :=
  let s := startAnswer st q
  if s.initiated then
    let r := finishAnswer s.state q gen1 ev1 gen2 ev2
    { state := r.state, genCalls := s.genCalls + r.genCalls,
      evCalls := s.evCalls + r.evCalls }
  else
    { state := s.state, genCalls := s.genCalls, evCalls := s.evCalls }

/-- A click on the AnswerButton (QuestionnairePanel.js lines 1026-1048):
the button carries disabled when the question id is in
answeringQuestions, so such a click triggers no invocation at all;
otherwise it starts handleAnswerQuestion. -/
def clickAnswer (st : PanelState) (q : Question) : StartResult :=
  if q.question_id ∈ st.answeringQuestions then
    { state := st, initiated := false, genCalls := 0, evCalls := 0 }
  else
    startAnswer st q

/-! ## FolderContents upload queue

The multi-file upload of FolderContents.js (uploadMultipleFiles, lines
602-665) builds a queue of items, each tagged pending, then processes
them one by one: an item is retagged uploading just before its
uploadSingleFile call and retagged completed (with progress one hundred)
or error (with the message) when the call settles.  Queue updates are
maps keyed on the item id, so no update removes an item.  Ids are
modelled by the queue index, which determines the JavaScript id string
upload_TIMESTAMP_index. -/

inductive UploadStatus
  | pending
  | uploading
  | completed
  | error
deriving DecidableEq, Repr

/-- One entry of the uploadQueue state: id, status, progress percentage
and the error message recorded on failure. -/
structure UploadItem where
  id : Nat
  status : UploadStatus
  progress : Nat
  errMsg : Option String
deriving DecidableEq, Repr

/-- The freshly created queue entry for file index k. -/
def pendingItem (k : Nat) : UploadItem :=
  { id := k, status := UploadStatus.pending, progress := 0, errMsg := none }

/-- The initial upload queue for n selected files: every item pending. -/
def initQueue (n : Nat) : List UploadItem :=
  (List.range n).map pendingItem

/-- The setUploadQueue(prev.map(...)) update pattern: rewrite the item
with the given id, leave every other item alone. -/
def updateItem (qid : Nat) (f : UploadItem → UploadItem) (queue : List UploadItem) :
    List UploadItem :=
  queue.map (fun it => if it.id = qid then f it else it)

/-- Retag an item as uploading, as done just before its upload call. -/
def markUploading (qid : Nat) (queue : List UploadItem) : List UploadItem :=
  updateItem qid (fun it => { it with status := UploadStatus.uploading }) queue

/-- Settle an item after its upload call: outcome none is success
(completed, progress one hundred), outcome some e is failure (error,
message recorded). -/
def settleItem (outcome : Option String) (qid : Nat) (queue : List UploadItem) :
    List UploadItem :=
  match outcome with
  | none =>
    updateItem qid
      (fun it => { it with status := UploadStatus.completed, progress := 100 }) queue
  | some e =>
    updateItem qid
      (fun it => { it with status := UploadStatus.error, errMsg := some e }) queue

/-- One loop iteration of uploadMultipleFiles for the item with id qid. -/
def processOne (outcome : Nat → Option String) (qid : Nat)
    (queue : List UploadItem) : List UploadItem :=
  settleItem (outcome qid) qid (markUploading qid queue)

/-- The queue after the first m loop iterations, starting from the
initial all-pending queue of n files. -/
def processQueueUpTo (outcome : Nat → Option String) (n m : Nat) : List UploadItem :=
  (List.range m).foldl (fun queue i => processOne outcome i queue) (initQueue n)

/-- The queue state observable in the middle of iteration m, right after
the item is retagged uploading and before its upload call settles. -/
def midQueue (outcome : Nat → Option String) (n m : Nat) : List UploadItem :=
  markUploading m (processQueueUpTo outcome n m)

/-- The settled entry for file index k. -/
def settledItem (outcome : Nat → Option String) (k : Nat) : UploadItem :=
  match outcome k with
  | none =>
    { id := k, status := UploadStatus.completed, progress := 100, errMsg := none }
  | some e =>
    { id := k, status := UploadStatus.error, progress := 0, errMsg := some e }

lemma getElem?_initQueue (n k : Nat) :
    (initQueue n)[k]? = if k < n then some (pendingItem k) else none := by
  by_cases hk : k < n
  · simp [initQueue, hk]
  · simp [initQueue, hk, List.getElem?_eq_none, Nat.le_of_not_lt]

lemma getElem?_updateItem (qid : Nat) (f : UploadItem → UploadItem)
    (queue : List UploadItem) (k : Nat) :
    (updateItem qid f queue)[k]?
      = queue[k]?.map (fun it => if it.id = qid then f it else it) := by
  simp [updateItem]

lemma processQueueUpTo_succ (outcome : Nat → Option String) (n m : Nat) :
    processQueueUpTo outcome n (m + 1)
      = processOne outcome m (processQueueUpTo outcome n m) := by
  simp [processQueueUpTo, List.range_succ]

lemma getElem?_processQueueUpTo (outcome : Nat → Option String) (n m k : Nat)
    (hk : k < n) :
    (processQueueUpTo outcome n m)[k]?
      = some (if k < m then settledItem outcome k else pendingItem k) := by
  induction m with
  | zero =>
    simp only [processQueueUpTo, List.range_zero, List.foldl_nil]
    simp [getElem?_initQueue, hk]
  | succ m ih =>
    rw [processQueueUpTo_succ]
    rcases Nat.lt_trichotomy k m with hkm | hkm | hkm
    · have h1 : k < m + 1 := Nat.lt_succ_of_lt hkm
      simp only [processOne, settleItem, markUploading]
      have hid : (settledItem outcome k).id = k := by
        unfold settledItem
        rcases outcome k with _ | e <;> rfl
      have hne : (settledItem outcome k).id ≠ m := by
        rw [hid]; exact Nat.ne_of_lt hkm
      rcases houtm : outcome m with _ | e <;>
        simp [getElem?_updateItem, ih, hkm, h1, hne]
    · subst hkm
      simp only [processOne, settleItem, markUploading]
      have hlt : k < k + 1 := Nat.lt_succ_self k
      rcases houtm : outcome k with _ | e <;>
        simp [getElem?_updateItem, ih, hlt, pendingItem, settledItem, houtm]
    · have h1 : ¬ k < m + 1 := by omega
      have h0 : ¬ k < m := by omega
      simp only [processOne, settleItem, markUploading]
      have hne : (pendingItem k).id ≠ m := by
        simp [pendingItem]; omega
      rcases houtm : outcome m with _ | e <;>
        simp [getElem?_updateItem, ih, h0, h1, hne]

lemma processQueueUpTo_ids (outcome : Nat → Option String) (n m : Nat) :
    (processQueueUpTo outcome n m).map UploadItem.id = List.range n := by
  have hlen : ∀ (l : List Nat) (q : List UploadItem),
      (l.foldl (fun queue i => processOne outcome i queue) q).length = q.length := by
    intro l
    induction l with
    | nil => intro q; rfl
    | cons i rest ih =>
      intro q
      simp only [List.foldl_cons]
      rw [ih]
      simp [processOne, settleItem, markUploading, updateItem]
      rcases outcome i with _ | e <;> simp
  apply List.ext_getElem?
  intro k
  by_cases hk : k < n
  · rw [List.getElem?_map, getElem?_processQueueUpTo outcome n m k hk]
    by_cases hkm : k < m
    · simp only [hkm, if_true]
      rcases ho : outcome k with _ | e <;> simp [settledItem, ho, hk]
    · simp [hkm, pendingItem, hk]
  · have hl : (processQueueUpTo outcome n m).length = n := by
      have := hlen (List.range m) (initQueue n)
      simpa [processQueueUpTo, initQueue] using this
    rw [List.getElem?_map]
    rw [List.getElem?_eq_none (by omega), List.getElem?_eq_none (by simpa [hl] using Nat.le_of_not_lt hk)]
    rfl

/-- C7: background upload processing has an observable per-item status.
Every queue item starts pending; during its iteration it is observably
uploading; after the loop every item is settled as completed or error
according to its own upload outcome; and at every stage of processing
the queue still contains exactly the original item ids in order, so no
item is dropped before reaching a terminal status. -/
theorem uploadQueue_status_lifecycle (outcome : Nat → Option String) (n : Nat) :
    (∀ k, k < n → (initQueue n)[k]? = some (pendingItem k)) ∧
    (∀ m, m < n → (midQueue outcome n m)[m]?
      = some { id := m, status := UploadStatus.uploading, progress := 0, errMsg := none }) ∧
    (∀ k, k < n → (processQueueUpTo outcome n n)[k]? = some (settledItem outcome k) ∧
      ((settledItem outcome k).status = UploadStatus.completed ∨
        (settledItem outcome k).status = UploadStatus.error)) ∧
    (∀ m, m ≤ n → (processQueueUpTo outcome n m).map UploadItem.id = List.range n) := by
  refine ⟨?_, ?_, ?_, ?_⟩
  · intro k hk
    simp [getElem?_initQueue, hk]
  · intro m hm
    have hmid := getElem?_processQueueUpTo outcome n m m hm
    simp only [midQueue, markUploading]
    rw [getElem?_updateItem, hmid]
    simp [pendingItem]
  · intro k hk
    refine ⟨by rw [getElem?_processQueueUpTo outcome n n k hk]; simp [hk], ?_⟩
    unfold settledItem
    rcases outcome k with _ | e
    · exact Or.inl rfl
    · exact Or.inr rfl
  · intro m _
    exact processQueueUpTo_ids outcome n m

/-- The upload outcome used to instantiate the queue theorem: file zero
succeeds, file one fails. -/
def exOutcome : Nat → Option String := fun i => if i = 1 then some "boom" else none

/-- Witness for C7 with two files: file zero ends completed, file one
ends error, the mid-state of iteration zero shows uploading, and the
ids survive every stage. -/
theorem uploadQueue_status_lifecycle_witness :
    ((0 : Nat) < 2 ∧ (1 : Nat) < 2) ∧
    (midQueue exOutcome 2 0)[0]?
      = some { id := 0, status := UploadStatus.uploading, progress := 0, errMsg := none } ∧
    (processQueueUpTo exOutcome 2 2)[0]? = some (settledItem exOutcome 0) ∧
    ((settledItem exOutcome 1).status = UploadStatus.completed ∨
      (settledItem exOutcome 1).status = UploadStatus.error) ∧
    (processQueueUpTo exOutcome 2 2).map UploadItem.id = List.range 2 := by
  have h := uploadQueue_status_lifecycle exOutcome 2
  exact ⟨⟨by decide, by decide⟩, h.2.1 0 (by decide),
    (h.2.2.1 0 (by decide)).1, (h.2.2.1 1 (by decide)).2, h.2.2.2 2 (by decide)⟩

/-! ## FolderContents upload title extraction

uploadSingleFile (FolderContents.js lines 667-693) derives the form
title from the file name with
fileExtension = name.split(dot).pop() and
title = name.replace(dot + fileExtension, empty string).
Strings are modelled as lists of characters; split, pop and
replace-first-occurrence-with-empty are modelled after the JavaScript
builtins they embed. -/

/-- String.prototype.split with a single-character separator. -/
def splitOnChar (c : Char) : List Char → List (List Char)
  | [] => [[]]
  | x :: xs =>
    match splitOnChar c xs with
    | [] => [[]]
    | h :: t => if x = c then [] :: h :: t else (x :: h) :: t

/-- Array.prototype.pop on the nonempty result of split: the last part. -/
def jsPop (l : List (List Char)) : List Char := l.getLastD []

/-- String.prototype.replace with a string pattern and empty
replacement: removes the first occurrence of pat, if any. -/
def jsReplaceFirst (pat : List Char) : List Char → List Char
  | [] => []
  | x :: xs =>
    if pat.isPrefixOf (x :: xs) then List.drop pat.length (x :: xs)
    else x :: jsReplaceFirst pat xs

/-- The fileExtension computed by uploadSingleFile. -/
def extractExtension (name : List Char) : List Char :=
  jsPop (splitOnChar '.' name)

/-- The title sent in the upload form data by uploadSingleFile. -/
def extractTitle (name : List Char) : List Char :=
  jsReplaceFirst ('.' :: extractExtension name) name

lemma splitOnChar_cons (c x : Char) (xs : List Char) :
    splitOnChar c (x :: xs)
      = match splitOnChar c xs with
        | [] => [[]]
        | h :: t => if x = c then [] :: h :: t else (x :: h) :: t := rfl

lemma splitOnChar_ne_nil (c : Char) (l : List Char) : splitOnChar c l ≠ [] := by
  induction l with
  | nil => simp [splitOnChar]
  | cons x xs ih =>
    rw [splitOnChar_cons]
    rcases hs : splitOnChar c xs with _ | ⟨h, t⟩
    · exact absurd hs ih
    · by_cases hx : x = c <;> simp [hx]

lemma splitOnChar_not_mem (c : Char) (l : List Char) (h : c ∉ l) :
    splitOnChar c l = [l] := by
  induction l with
  | nil => rfl
  | cons x xs ih =>
    have hx : x ≠ c := fun hxc => h (by simp [hxc])
    have hxs : c ∉ xs := fun hc => h (List.mem_cons_of_mem x hc)
    rw [splitOnChar_cons, ih hxs]
    simp [hx]

lemma splitOnChar_append (c : Char) (base rest : List Char) (hb : c ∉ base) :
    splitOnChar c (base ++ c :: rest) = base :: splitOnChar c rest := by
  induction base with
  | nil =>
    simp only [List.nil_append]
    rw [splitOnChar_cons]
    rcases hs : splitOnChar c rest with _ | ⟨h, t⟩
    · exact absurd hs (splitOnChar_ne_nil c rest)
    · simp
  | cons b bs ih =>
    have hbne : b ≠ c := fun hbc => hb (by simp [hbc])
    have hbs : c ∉ bs := fun hc => hb (List.mem_cons_of_mem b hc)
    simp only [List.cons_append]
    rw [splitOnChar_cons, ih hbs]
    simp [hbne]

lemma jsReplaceFirst_strip (ext base : List Char) (hb : ('.' : Char) ∉ base) :
    jsReplaceFirst ('.' :: ext) (base ++ '.' :: ext) = base := by
  induction base with
  | nil =>
    have hpre : (('.' :: ext).isPrefixOf ('.' :: ext)) = true := by
      simp [List.isPrefixOf_iff_prefix]
    simp [jsReplaceFirst, hpre, List.drop_length]
  | cons b bs ih =>
    have hbne : ('.' : Char) ≠ b := fun hbc => hb (by simp [hbc.symm])
    have hbs : ('.' : Char) ∉ bs := fun hc => hb (List.mem_cons_of_mem b hc)
    simp only [List.cons_append]
    unfold jsReplaceFirst
    have hpre : (('.' :: ext).isPrefixOf (b :: (bs ++ '.' :: ext))) = false := by
      simp [List.isPrefixOf, hbne]
    simp [hpre, ih hbs]

/-- C9: upload title extraction round-trips for single-extension
filenames.  For a file name of the form base, dot, ext where neither
base nor ext contains a dot (so the name has exactly one dot), the title
sent in the form data is base, the extension is ext, and concatenating
title, dot and extension restores the original name. -/
theorem uploadTitle_roundTrip (base ext : List Char)
    (hb : ('.' : Char) ∉ base) (he : ('.' : Char) ∉ ext) :
    extractTitle (base ++ '.' :: ext) = base ∧
    extractExtension (base ++ '.' :: ext) = ext ∧
    extractTitle (base ++ '.' :: ext) ++ '.' :: extractExtension (base ++ '.' :: ext)
      = base ++ '.' :: ext := by
  have hext : extractExtension (base ++ '.' :: ext) = ext := by
    unfold extractExtension
    rw [splitOnChar_append '.' base ext hb, splitOnChar_not_mem '.' ext he]
    rfl
  have htitle : extractTitle (base ++ '.' :: ext) = base := by
    unfold extractTitle
    rw [hext]
    exact jsReplaceFirst_strip ext base hb
  exact ⟨htitle, hext, by rw [htitle, hext]⟩

/-- Witness for C9 at the concrete file name a.pdf. -/
theorem uploadTitle_roundTrip_witness :
    (('.' : Char) ∉ ['a'] ∧ ('.' : Char) ∉ ['p', 'd', 'f']) ∧
    (extractTitle (['a'] ++ '.' :: ['p', 'd', 'f']) = ['a'] ∧
      extractExtension (['a'] ++ '.' :: ['p', 'd', 'f']) = ['p', 'd', 'f'] ∧
      extractTitle (['a'] ++ '.' :: ['p', 'd', 'f'])
          ++ '.' :: extractExtension (['a'] ++ '.' :: ['p', 'd', 'f'])
        = ['a'] ++ '.' :: ['p', 'd', 'f']) :=
  ⟨⟨by decide, by decide⟩,
    uploadTitle_roundTrip ['a'] ['p', 'd', 'f'] (by decide) (by decide)⟩

/-! ## FolderContents refresh debounce

handleRefresh (FolderContents.js lines 494-534) compares Date.now()
against the recorded lastRefreshTime and returns before doing anything
when less than one thousand milliseconds have passed; otherwise it
records the new time, refetches the folder's document list and kicks a
status check per fetched document. -/

/-- The slice of FolderContents state that handleRefresh touches. -/
structure FolderState where
  lastRefreshTime : Int
  documents : List Nat
  documentStatuses : List (Nat × Nat)
  loading : Bool
deriving DecidableEq, Repr

/-- The per-document status checks fired after a refresh fetch:
checkDocumentStatus updates the status map for each document whose
status endpoint answers, and skips documents whose check fails. -/
def updateStatuses (statusFetch : Nat → Option Nat) (docs : List Nat)
    (m : List (Nat × Nat)) : List (Nat × Nat) :=
  docs.foldl
    (fun acc d =>
      match statusFetch d with
      | some s => (d, s) :: acc
      | none => acc) m

/-- One invocation of handleRefresh at time now.  The Bool result
records whether the invocation issued a document fetch.  fetchResult is
the outcome of that fetch (ignored when debounced or when no folder is
selected); on fetch failure the catch block empties the document list. -/
def handleRefresh (st : FolderState) (now : Int) (hasFolder : Bool)
    (fetchResult : Except Unit (List Nat)) (statusFetch : Nat → Option Nat) :
    FolderState × Bool :=
  if now - st.lastRefreshTime < 1000 then (st, false)
  else
    let st1 := { st with lastRefreshTime := now }
    if hasFolder then
      match fetchResult with
      | Except.ok docs =>
        ({ st1 with
            documents := docs,
            loading := false,
            documentStatuses := updateStatuses statusFetch docs st1.documentStatuses },
          true)
      | Except.error _ =>
        ({ st1 with documents := [], loading := false }, true)
    else (st1, false)

/-- C10: folder refresh is debounced.  For two invocations of
handleRefresh less than one thousand milliseconds apart, at most one of
the two issues a document fetch; and whenever the first one did fetch,
the second returns before fetching and leaves the entire state, in
particular the document list, the document statuses and the recorded
last-refresh time, unchanged. -/
theorem refreshDebounced (st : FolderState) (t1 t2 : Int) (hasFolder : Bool)
    (f1 f2 : Except Unit (List Nat)) (sf : Nat → Option Nat)
    (h : t2 - t1 < 1000) :
    (¬ ((handleRefresh st t1 hasFolder f1 sf).2 = true ∧
      (handleRefresh (handleRefresh st t1 hasFolder f1 sf).1 t2 hasFolder f2 sf).2
        = true)) ∧
    ((handleRefresh st t1 hasFolder f1 sf).2 = true →
      handleRefresh (handleRefresh st t1 hasFolder f1 sf).1 t2 hasFolder f2 sf
        = ((handleRefresh st t1 hasFolder f1 sf).1, false)) := by
  by_cases hd : t1 - st.lastRefreshTime < 1000
  · simp [handleRefresh, hd]
  · cases hasFolder
    · simp [handleRefresh, hd]
    · rcases f1 with u | docs
      · simp [handleRefresh, hd, h]
      · simp [handleRefresh, hd, h]

/-- A fresh folder state, never refreshed. -/
def exFolderState : FolderState :=
  { lastRefreshTime := 0, documents := [], documentStatuses := [], loading := false }

/-- Witness for C10: a refresh at time two thousand (fetching one
document) followed five hundred milliseconds later by a second refresh
that is debounced. -/
theorem refreshDebounced_witness :
    ((2500 : Int) - 2000 < 1000) ∧
    (¬ ((handleRefresh exFolderState 2000 true (Except.ok [5]) (fun _ => none)).2 = true ∧
      (handleRefresh
        (handleRefresh exFolderState 2000 true (Except.ok [5]) (fun _ => none)).1
        2500 true (Except.ok [7]) (fun _ => none)).2 = true)) ∧
    ((handleRefresh exFolderState 2000 true (Except.ok [5]) (fun _ => none)).2 = true →
      handleRefresh
        (handleRefresh exFolderState 2000 true (Except.ok [5]) (fun _ => none)).1
        2500 true (Except.ok [7]) (fun _ => none)
      = ((handleRefresh exFolderState 2000 true (Except.ok [5]) (fun _ => none)).1, false)) :=
  ⟨by decide,
    refreshDebounced exFolderState 2000 2500 true
      (Except.ok [5]) (Except.ok [7]) (fun _ => none) (by decide)⟩

/-! ## MainLayout split-pane width -/

/-- An interaction with the MainLayout resizer: a mouse move while
resizing, carrying the raw width percentage computed from the cursor
position, or the double-click reset. -/
inductive LayoutEvent
  | resize (raw : ℚ)
  | reset
deriving DecidableEq, Repr

/-- The initial leftWidth of MainLayout (useState(50)). -/
def initialLeftWidth : ℚ := 50

/-- One update of leftWidth (MainLayout, handleMouseMove and
handleDoubleClick): a resize clamps the raw value into the range twenty
to eighty percent, the double-click resets to fifty. -/
def applyLayoutEvent (_w : ℚ) : LayoutEvent → ℚ
  | LayoutEvent.resize raw => min (max raw 20) 80
  | LayoutEvent.reset => 50

/-- The leftWidth reached after a sequence of resizer interactions. -/
def runLayoutEvents (evs : List LayoutEvent) : ℚ :=
  evs.foldl applyLayoutEvent initialLeftWidth

lemma applyLayoutEvent_bounds (w : ℚ) (e : LayoutEvent) :
    20 ≤ applyLayoutEvent w e ∧ applyLayoutEvent w e ≤ 80 := by
  cases e with
  | resize raw =>
    refine ⟨?_, ?_⟩
    · simp only [applyLayoutEvent, le_min_iff, le_max_iff]
      exact ⟨Or.inr le_rfl, by norm_num⟩
    · exact min_le_right _ _
  | reset =>
    exact ⟨by norm_num [applyLayoutEvent], by norm_num [applyLayoutEvent]⟩

lemma foldl_layout_bounds (evs : List LayoutEvent) (w : ℚ)
    (hw : 20 ≤ w ∧ w ≤ 80) :
    20 ≤ evs.foldl applyLayoutEvent w ∧ evs.foldl applyLayoutEvent w ≤ 80 := by
  induction evs generalizing w with
  | nil => simpa using hw
  | cons e rest ih =>
    simp only [List.foldl_cons]
    exact ih (applyLayoutEvent w e) (applyLayoutEvent_bounds w e)

lemma notMem_setErase (x : Nat) (l : List Nat) : x ∉ setErase x l := by
  simp [setErase]

lemma handleAnswer_clears_marker (st : PanelState) (q : Question)
    (g1 g2 : Except String GenResponse) (v1 v2 : Except String EvidenceResponse) :
    q.question_id ∉ (handleAnswerQuestion st q g1 v1 g2 v2).state.answeringQuestions := by
  rcases hl : st.questionAnswers.lookup q.question_id with _ | a1
  · rcases hex : q.existingAnswer with _ | a2
    · rcases g1 with m1 | ⟨succ1, ans1, fc1⟩
      · rcases g2 with m2 | ⟨succ2, ans2, fc2⟩
        · simp [handleAnswerQuestion, startAnswer, finishAnswer, hl, hex, notMem_setErase]
        · cases succ2 <;> rcases ans2 with _ | x2 <;>
            simp [handleAnswerQuestion, startAnswer, finishAnswer, hl, hex, notMem_setErase]
      · rcases v1 with n1 | ⟨ev1f⟩
        · rcases g2 with m2 | ⟨succ2, ans2, fc2⟩
          · simp [handleAnswerQuestion, startAnswer, finishAnswer, hl, hex, notMem_setErase]
          · cases succ2 <;> rcases ans2 with _ | x2 <;>
              simp [handleAnswerQuestion, startAnswer, finishAnswer, hl, hex, notMem_setErase]
        · cases succ1 <;> rcases ans1 with _ | x1 <;>
            simp [handleAnswerQuestion, startAnswer, finishAnswer, hl, hex, notMem_setErase]
    · simp [handleAnswerQuestion, startAnswer, hl, hex, notMem_setErase]
  · simp [handleAnswerQuestion, startAnswer, hl, notMem_setErase]

/-- C1: answering one question is idempotent.  When an answer for the
question id is already present in local state, or absent there but
present in the question's existingAnswer field, handleAnswerQuestion
returns early: it issues no answerAuditQuestion and no
findEvidenceForQuestion request, and the stored answer for that id after
the run is the already-stored one. -/
theorem answerQuestion_idempotent (st : PanelState) (q : Question) (a : Answer)
    (gen1 gen2 : Except String GenResponse) (ev1 ev2 : Except String EvidenceResponse)
    (h : st.questionAnswers.lookup q.question_id = some a ∨
      (st.questionAnswers.lookup q.question_id = none ∧ q.existingAnswer = some a)) :
    (handleAnswerQuestion st q gen1 ev1 gen2 ev2).genCalls = 0 ∧
    (handleAnswerQuestion st q gen1 ev1 gen2 ev2).evCalls = 0 ∧
    (handleAnswerQuestion st q gen1 ev1 gen2 ev2).state.questionAnswers.lookup q.question_id
      = some a := by
  rcases h with h | ⟨h1, h2⟩
  · simp [handleAnswerQuestion, startAnswer, h]
  · simp [handleAnswerQuestion, startAnswer, h1, h2, List.lookup]

/-- A sample stored answer used to instantiate the panel theorems. -/
def exAnswer : Answer :=
  { answer := "YES", confidence := 1, key_evidence := none, evidence_data := none }

/-- A question with id zero and no database answer attached. -/
def exQuestion : Question := { question_id := 0, existingAnswer := none }

/-- Panel state that already holds an answer for question zero. -/
def exStCached : PanelState :=
  { questionAnswers := [(0, exAnswer)], answeringQuestions := [], errorMsg := none }

/-- Panel state with no stored answers and nothing in flight. -/
def exStEmpty : PanelState :=
  { questionAnswers := [], answeringQuestions := [], errorMsg := none }

/-- Panel state with question zero marked in flight. -/
def exStInflight : PanelState :=
  { questionAnswers := [], answeringQuestions := [0], errorMsg := none }

/-- A successful generation outcome. -/
def exGenOk : Except String GenResponse :=
  Except.ok { success := true, answer := some exAnswer, from_cache := false }

/-- A successful evidence outcome carrying no evidence payload. -/
def exEvOk : Except String EvidenceResponse := Except.ok { evidence := none }

/-- A failed generation outcome (timeout). -/
def exGenErr : Except String GenResponse := Except.error "timeout"

/-- A failed evidence outcome (timeout). -/
def exEvErr : Except String EvidenceResponse := Except.error "timeout"

/-- Witness for C1: question zero has a cached answer, and a second run
of handleAnswerQuestion makes no API calls and returns it. -/
theorem answerQuestion_idempotent_witness :
    (exStCached.questionAnswers.lookup exQuestion.question_id = some exAnswer ∨
      (exStCached.questionAnswers.lookup exQuestion.question_id = none ∧
        exQuestion.existingAnswer = some exAnswer)) ∧
    ((handleAnswerQuestion exStCached exQuestion exGenOk exEvOk exGenOk exEvOk).genCalls = 0 ∧
      (handleAnswerQuestion exStCached exQuestion exGenOk exEvOk exGenOk exEvOk).evCalls = 0 ∧
      (handleAnswerQuestion exStCached exQuestion
          exGenOk exEvOk exGenOk exEvOk).state.questionAnswers.lookup exQuestion.question_id
        = some exAnswer) :=
  ⟨Or.inl rfl,
    answerQuestion_idempotent exStCached exQuestion exAnswer
      exGenOk exGenOk exEvOk exEvOk (Or.inl rfl)⟩

/-- C2 counterexample: two invocations of handleAnswerQuestion for the
same uncached question id that both start before either completes (each
runs its synchronous prefix up to the await before the other resumes,
the run-to-completion schedule of the event loop) each fire their own
answerAuditQuestion request: two generation requests in total, not the
single one the single-flight claim asserts. -/
theorem singleFlight_counterexample :
    (startAnswer exStEmpty exQuestion).genCalls +
      (startAnswer (startAnswer exStEmpty exQuestion).state exQuestion).genCalls = 2 ∧
    ¬ ((startAnswer exStEmpty exQuestion).genCalls +
      (startAnswer (startAnswer exStEmpty exQuestion).state exQuestion).genCalls = 1) := by
  constructor
  · rfl
  · decide

/-- C2 amended: handleAnswerQuestion itself has no single-flight guard:
each of two concurrent invocations for the same uncached question id
initiates its own generation request.  Duplicate work is prevented only
at the user-interface level: the AnswerButton is rendered disabled while
the question id is in answeringQuestions, so a click during an in-flight
generation triggers no invocation, no generation request and no state
change (rather than joining the in-flight result). -/
theorem singleFlight_amended (st : PanelState) (q : Question)
    (h1 : st.questionAnswers.lookup q.question_id = none)
    (h2 : q.existingAnswer = none) :
    ((startAnswer st q).genCalls = 1 ∧
      (startAnswer (startAnswer st q).state q).genCalls = 1) ∧
    (∀ st2 : PanelState, q.question_id ∈ st2.answeringQuestions →
      clickAnswer st2 q
        = { state := st2, initiated := false, genCalls := 0, evCalls := 0 }) := by
  refine ⟨⟨?_, ?_⟩, ?_⟩
  · simp [startAnswer, h1, h2]
  · simp [startAnswer, h1, h2]
  · intro st2 hmem
    simp [clickAnswer, hmem]

/-- Witness for the amended C2 at question zero and the empty panel
state. -/
theorem singleFlight_amended_witness :
    (exStEmpty.questionAnswers.lookup exQuestion.question_id = none ∧
      exQuestion.existingAnswer = none) ∧
    (((startAnswer exStEmpty exQuestion).genCalls = 1 ∧
      (startAnswer (startAnswer exStEmpty exQuestion).state exQuestion).genCalls = 1) ∧
    (∀ st2 : PanelState, exQuestion.question_id ∈ st2.answeringQuestions →
      clickAnswer st2 exQuestion
        = { state := st2, initiated := false, genCalls := 0, evCalls := 0 })) :=
  ⟨⟨rfl, rfl⟩, singleFlight_amended exStEmpty exQuestion rfl rfl⟩

/-- C5: on generation failure the in-flight marker is cleared and the
error is propagated.  For any outcomes at all, the question id is absent
from answeringQuestions after the run (the finally block always erases
it), and when both generation attempts fail the error banner is set and
the questionAnswers map is left exactly as it was: no partial entry is
stored. -/
theorem failureClearsInflight (st : PanelState) (q : Question)
    (e1 e2 : String) (v1 v2 : Except String EvidenceResponse)
    (h1 : st.questionAnswers.lookup q.question_id = none)
    (h2 : q.existingAnswer = none) :
    (∀ g1 g2 : Except String GenResponse, ∀ w1 w2 : Except String EvidenceResponse,
      q.question_id ∉ (handleAnswerQuestion st q g1 w1 g2 w2).state.answeringQuestions) ∧
    (handleAnswerQuestion st q (Except.error e1) v1 (Except.error e2) v2).state.errorMsg
      = some ("Failed to answer question: " ++ e1) ∧
    (handleAnswerQuestion st q (Except.error e1) v1 (Except.error e2) v2).state.questionAnswers
      = st.questionAnswers := by
  refine ⟨fun g1 g2 w1 w2 => handleAnswer_clears_marker st q g1 g2 w1 w2, ?_, ?_⟩
  · rcases v1 with nv | ⟨evf⟩ <;>
      simp [handleAnswerQuestion, startAnswer, finishAnswer, h1, h2]
  · rcases v1 with nv | ⟨evf⟩ <;>
      simp [handleAnswerQuestion, startAnswer, finishAnswer, h1, h2]

/-- Witness for C5: a timed-out generation for question zero, starting
from a state in which the question is marked in flight, clears the
marker, surfaces the error and stores nothing. -/
theorem failureClearsInflight_witness :
    (exStInflight.questionAnswers.lookup exQuestion.question_id = none ∧
      exQuestion.existingAnswer = none) ∧
    ((∀ g1 g2 : Except String GenResponse, ∀ w1 w2 : Except String EvidenceResponse,
      exQuestion.question_id ∉
        (handleAnswerQuestion exStInflight exQuestion g1 w1 g2 w2).state.answeringQuestions) ∧
    (handleAnswerQuestion exStInflight exQuestion
        (Except.error "timeout") exEvErr (Except.error "timeout") exEvErr).state.errorMsg
      = some ("Failed to answer question: " ++ "timeout") ∧
    (handleAnswerQuestion exStInflight exQuestion
        (Except.error "timeout") exEvErr (Except.error "timeout") exEvErr).state.questionAnswers
      = exStInflight.questionAnswers) :=
  ⟨⟨rfl, rfl⟩,
    failureClearsInflight exStInflight exQuestion "timeout" "timeout" exEvErr exEvErr rfl rfl⟩

/-- C8: the layout split invariant holds in every reachable state of
MainLayout: leftWidth starts at fifty, every resize clamps the computed
value with min and max into the range from twenty to eighty, the
double-click reset returns to fifty, and hence every reachable leftWidth
lies between twenty and eighty percent. -/
theorem mainLayout_leftWidth_invariant (evs : List LayoutEvent) :
    20 ≤ runLayoutEvents evs ∧ runLayoutEvents evs ≤ 80 ∧
    runLayoutEvents [] = 50 ∧
    runLayoutEvents (evs ++ [LayoutEvent.reset]) = 50 := by
  refine ⟨?_, ?_, ?_, ?_⟩
  · exact (foldl_layout_bounds evs initialLeftWidth (by norm_num [initialLeftWidth])).1
  · exact (foldl_layout_bounds evs initialLeftWidth (by norm_num [initialLeftWidth])).2
  · norm_num [runLayoutEvents, initialLeftWidth]
  · simp [runLayoutEvents, applyLayoutEvent]

/-! ## Batch answering (modelled from the design document)

The frontend submits batches through generateAnswers (services/api.js,
POST /api/answers/batch); the orchestrator serving that route is backend
code not present among the frontend sources, so it is modelled here from
section 4.5 of the design document. -/

/-- Error descriptors of the answering pipeline, from the error handling
section of the design document. -/
inductive BatchError
  | notFound
  | malformedResponse
  | upstreamTimeout
  | upstreamRateLimited
deriving DecidableEq, Repr

/-- Modelled from the spec: the BatchOrchestrator behind
POST /api/answers/batch is not under src.  Section 4.5 specifies that it
fans one pipeline invocation out per question, isolates each question's
failure from its siblings, and reports the per-question results in
input order regardless of completion order.  compute gives each question
index its Answer-or-error outcome; completionOrder is the order in which
the concurrent workers happen to finish; every finishing worker writes
its outcome into the result slot of its original index. -/
def runBatch (compute : Nat → Except BatchError Answer) (completionOrder : List Nat)
    (n : Nat) : List (Option (Except BatchError Answer)) :=
  completionOrder.foldl (fun slots i => slots.set i (some (compute i)))
    (List.replicate n none)

lemma foldl_set_getElem? (compute : Nat → Except BatchError Answer)
    (order : List Nat) (init : List (Option (Except BatchError Answer))) (j : Nat) :
    (order.foldl (fun slots i => slots.set i (some (compute i))) init)[j]?
      = if j ∈ order ∧ j < init.length then some (some (compute j)) else init[j]? := by
  induction order generalizing init with
  | nil => simp
  | cons i rest ih =>
    simp only [List.foldl_cons]
    rw [ih]
    by_cases hji : j = i
    · subst hji
      by_cases hjl : j < init.length
      · by_cases hjr : j ∈ rest
        · simp [hjr, hjl]
        · simp [hjr, hjl, List.getElem?_set_eq_of_lt _ hjl]
      · have hset : init.set j (some (compute j)) = init :=
          List.set_eq_of_length_le (Nat.le_of_not_lt hjl)
        simp [hset, hjl]
    · by_cases hjr : j ∈ rest
      · have hset : (init.set i (some (compute i)))[j]? = init[j]? :=
          List.getElem?_set_ne (fun h => hji h.symm)
        simp [hjr, List.length_set, List.mem_cons, hset]
      · have : (init.set i (some (compute i)))[j]? = init[j]? :=
          List.getElem?_set_ne (fun h => hji h.symm)
        simp [hjr, List.length_set, List.mem_cons, hji, this]

lemma runBatch_eq_inOrder (compute : Nat → Except BatchError Answer)
    (order : List Nat) (n : Nat) (hcover : ∀ j, j < n → j ∈ order) :
    runBatch compute order n
      = (List.range n).map (fun i => some (compute i)) := by
  apply List.ext_getElem?
  intro j
  rw [runBatch, foldl_set_getElem?]
  by_cases hj : j < n
  · simp [hj, hcover j hj]
  · simp [hj, List.getElem?_eq_none, Nat.le_of_not_lt hj]

/-- C3: batch answering isolates failures and preserves order.  With one
question (index bad) timing out and every other question succeeding, the
batch result equals, for every completion order covering all indices,
the in-input-order list whose bad slot holds the UpstreamTimeout error
and whose other slots hold their Answers. -/
theorem batch_isolation_and_order (n bad : Nat) (order : List Nat)
    (answers : Nat → Answer)
    (hcover : ∀ j, j < n → j ∈ order) (hbad : bad < n) :
    runBatch
        (fun i => if i = bad then Except.error BatchError.upstreamTimeout
          else Except.ok (answers i)) order n
      = (List.range n).map
          (fun i => some (if i = bad then Except.error BatchError.upstreamTimeout
            else Except.ok (answers i))) ∧
    (runBatch
        (fun i => if i = bad then Except.error BatchError.upstreamTimeout
          else Except.ok (answers i)) order n)[bad]?
      = some (some (Except.error BatchError.upstreamTimeout)) ∧
    (∀ k, k < n → k ≠ bad →
      (runBatch
          (fun i => if i = bad then Except.error BatchError.upstreamTimeout
            else Except.ok (answers i)) order n)[k]?
        = some (some (Except.ok (answers k)))) := by
  have heq := runBatch_eq_inOrder
    (fun i => if i = bad then Except.error BatchError.upstreamTimeout
      else Except.ok (answers i)) order n hcover
  refine ⟨heq, ?_, ?_⟩
  · rw [heq]
    simp [hbad]
  · intro k hk hkb
    rw [heq]
    simp [hk, hkb]

/-- Witness for C3: a batch of five questions in which question index
two times out, completing in the scrambled order four, two, zero, three,
one. -/
theorem batch_isolation_and_order_witness :
    ((∀ j, j < 5 → j ∈ [4, 2, 0, 3, 1]) ∧ (2 : Nat) < 5) ∧
    ((runBatch
        (fun i => if i = 2 then Except.error BatchError.upstreamTimeout
          else Except.ok (exAnswer)) [4, 2, 0, 3, 1] 5)[2]?
      = some (some (Except.error BatchError.upstreamTimeout)) ∧
    (∀ k, k < 5 → k ≠ 2 →
      (runBatch
          (fun i => if i = 2 then Except.error BatchError.upstreamTimeout
            else Except.ok (exAnswer)) [4, 2, 0, 3, 1] 5)[k]?
        = some (some (Except.ok (exAnswer))))) :=
  ⟨⟨by decide, by decide⟩,
    (batch_isolation_and_order 5 2 [4, 2, 0, 3, 1] (fun _ => exAnswer)
      (by decide) (by decide)).2⟩

/-! ## Answer synthesis (modelled from the design document) -/

/-- The structured fields parsed out of the language-model response. -/
structure RawResponse where
  verdict : Option String
  confidence : Option ℚ
  evidence : Option String
  reasoning : Option String
deriving DecidableEq, Repr

/-- Clamp a confidence value into the unit interval. -/
def clamp01 (c : ℚ) : ℚ := max 0 (min 1 c)

/-- Modelled from the spec: the AnswerSynthesizer of section 4.4 is
backend code not under src.  It parses the model response into verdict,
confidence, evidence and reasoning; a missing required field or a
verdict outside the two-valued YES/NO domain fails with
MalformedResponse rather than silently defaulting, and the confidence is
clamped into the unit interval. -/
def synthesize (raw : RawResponse) : Except BatchError Answer :=
  match raw.verdict, raw.confidence, raw.reasoning with
  | some v, some c, some _ =>
    if v = "YES" ∨ v = "NO" then
      Except.ok { answer := v, confidence := clamp01 c,
                  key_evidence := raw.evidence, evidence_data := none }
    else Except.error BatchError.malformedResponse
  | _, _, _ => Except.error BatchError.malformedResponse

/-- C4: every generated Answer has confidence between zero and one and a
verdict in the two-valued YES/NO domain. -/
theorem synthesize_confidence_bound (raw : RawResponse) (a : Answer)
    (h : synthesize raw = Except.ok a) :
    0 ≤ a.confidence ∧ a.confidence ≤ 1 ∧
      (a.answer = "YES" ∨ a.answer = "NO") := by
  rcases hv : raw.verdict with _ | v <;>
    rcases hc : raw.confidence with _ | c <;>
      rcases hr : raw.reasoning with _ | r <;>
        simp only [synthesize, hv, hc, hr] at h <;>
        try exact absurd h (by simp)
  split_ifs at h with hvv
  cases h
  exact ⟨le_max_left 0 _, max_le (by norm_num) (min_le_left 1 c), hvv⟩

/-- The raw response used to instantiate the synthesizer theorem; its
confidence three halves exercises the clamp. -/
def exRaw : RawResponse :=
  { verdict := some "YES", confidence := some (3 / 2),
    evidence := some "quoted text", reasoning := some "because" }

/-- The Answer the synthesizer produces from exRaw. -/
def exSynthAnswer : Answer :=
  { answer := "YES", confidence := 1, key_evidence := some "quoted text",
    evidence_data := none }

/-- Witness for C4 at the concrete response exRaw. -/
theorem synthesize_confidence_bound_witness :
    synthesize exRaw = Except.ok exSynthAnswer ∧
    (0 ≤ exSynthAnswer.confidence ∧ exSynthAnswer.confidence ≤ 1 ∧
      (exSynthAnswer.answer = "YES" ∨ exSynthAnswer.answer = "NO")) := by
  have h : synthesize exRaw = Except.ok exSynthAnswer := by
    simp [synthesize, exRaw, exSynthAnswer, clamp01]
    norm_num
  exact ⟨h, synthesize_confidence_bound exRaw exSynthAnswer h⟩

/-! ## Fragment rotation (modelled from the design document)

The chunk-rotation mechanism lives in the backend answering pipeline,
which is not among the frontend sources; sections 4.1 and 4.2 of the
design document specify it as a sequence counter with a per-fragment
last-used mark, a multiplicative penalty that decays toward one as the
gap since last use grows (weight one when never used), and an advance
operation called exactly once per successfully generated non-cached
answer and never on a cache hit.  The decay constants are declared
configurable there; this model uses weight (gap plus one) over
(gap plus two). -/

/-- The three candidate fragments of the fairness property. -/
inductive Fragment
  | A
  | B
  | C
deriving DecidableEq, Repr

/-- Modelled from the spec: the RotationTracker state of section 4.2 for
a three-fragment candidate set: the sequence counter and each fragment's
last-used sequence number. -/
structure RotationState where
  n : Nat
  lastA : Option Nat
  lastB : Option Nat
  lastC : Option Nat
deriving DecidableEq, Repr

/-- The rotation state of a question never answered before. -/
def freshRotation : RotationState :=
  { n := 0, lastA := none, lastB := none, lastC := none }

/-- The multiplicative rotation penalty: weight one when never used,
otherwise (gap plus one) over (gap plus two) where gap is the distance
from the last use to the current counter; the weight lies in the unit
interval and decays toward one as the gap grows. -/
def rotationPenalty (n : Nat) : Option Nat → ℚ
  | none => 1
  | some m => (((n - m : Nat) : ℚ) + 1) / (((n - m : Nat) : ℚ) + 2)

/-- The raw relevance scores of the three candidate fragments against
the question. -/
structure Relevance where
  rA : ℚ
  rB : ℚ
  rC : ℚ
deriving DecidableEq, Repr

/-- The penalised score of a fragment: raw relevance times rotation
penalty. -/
def fragScore (rot : RotationState) (rel : Relevance) : Fragment → ℚ
  | Fragment.A => rel.rA * rotationPenalty rot.n rot.lastA
  | Fragment.B => rel.rB * rotationPenalty rot.n rot.lastB
  | Fragment.C => rel.rC * rotationPenalty rot.n rot.lastC

/-- Selection of the primary evidence fragment: the fragment of maximal
penalised score, ties resolved in candidate order A, B, C. -/
def selectPrimary (rot : RotationState) (rel : Relevance) : Fragment :=
  if fragScore rot rel Fragment.B ≤ fragScore rot rel Fragment.A ∧
      fragScore rot rel Fragment.C ≤ fragScore rot rel Fragment.A then
    Fragment.A
  else if fragScore rot rel Fragment.C ≤ fragScore rot rel Fragment.B then
    Fragment.B
  else
    Fragment.C

/-- The advance operation of section 4.2: increment the counter and
record it against the fragment just used as primary evidence. -/
def rotationAdvance (rot : RotationState) (used : Fragment) : RotationState :=
  { n := rot.n + 1,
    lastA := if used = Fragment.A then some (rot.n + 1) else rot.lastA,
    lastB := if used = Fragment.B then some (rot.n + 1) else rot.lastB,
    lastC := if used = Fragment.C then some (rot.n + 1) else rot.lastC }

/-- One non-cached answer generation: select the primary evidence
fragment, then advance the rotation state once. -/
def generateOnce (rot : RotationState) (rel : Relevance) : Fragment × RotationState :=
  (selectPrimary rot rel, rotationAdvance rot (selectPrimary rot rel))

/-- The cache-or-generate pipeline step of section 4.3: a stored answer
with no force-refresh flag is returned as is, with no rotation advance;
otherwise a fresh generation runs and advances the rotation once. -/
def answerPipeline (cached : Option Fragment) (force : Bool)
    (rot : RotationState) (rel : Relevance) : Fragment × RotationState :=
  match cached, force with
  | some f, false => (f, rot)
  | _, _ => generateOnce rot rel

/-- The first force-refreshed generation from a fresh rotation state. -/
def rotationRun1 (rel : Relevance) : Fragment × RotationState :=
  generateOnce freshRotation rel

/-- The second consecutive force-refreshed generation. -/
def rotationRun2 (rel : Relevance) : Fragment × RotationState :=
  generateOnce (rotationRun1 rel).2 rel

/-- The third consecutive force-refreshed generation. -/
def rotationRun3 (rel : Relevance) : Fragment × RotationState :=
  generateOnce (rotationRun2 rel).2 rel

lemma selectPrimary_A (rot : RotationState) (rel : Relevance)
    (h1 : fragScore rot rel Fragment.B ≤ fragScore rot rel Fragment.A)
    (h2 : fragScore rot rel Fragment.C ≤ fragScore rot rel Fragment.A) :
    selectPrimary rot rel = Fragment.A := by
  unfold selectPrimary
  rw [if_pos ⟨h1, h2⟩]

lemma selectPrimary_B (rot : RotationState) (rel : Relevance)
    (h1 : ¬ (fragScore rot rel Fragment.B ≤ fragScore rot rel Fragment.A ∧
      fragScore rot rel Fragment.C ≤ fragScore rot rel Fragment.A))
    (h2 : fragScore rot rel Fragment.C ≤ fragScore rot rel Fragment.B) :
    selectPrimary rot rel = Fragment.B := by
  unfold selectPrimary
  rw [if_neg h1, if_pos h2]

lemma selectPrimary_C (rot : RotationState) (rel : Relevance)
    (h1 : ¬ (fragScore rot rel Fragment.B ≤ fragScore rot rel Fragment.A ∧
      fragScore rot rel Fragment.C ≤ fragScore rot rel Fragment.A))
    (h2 : ¬ fragScore rot rel Fragment.C ≤ fragScore rot rel Fragment.B) :
    selectPrimary rot rel = Fragment.C := by
  unfold selectPrimary
  rw [if_neg h1, if_neg h2]

/-- C6: rotation fairness.  When all three fragments exceed the
relevance threshold and none dominates in raw relevance (every pairwise
ratio below three halves, matching the penalty weights one half and two
thirds of the model), three consecutive force-refreshed generations from
a fresh rotation state select three pairwise distinct primary fragments;
the counter advances exactly once per generation; and a cache hit
without force-refresh leaves the rotation state untouched. -/
theorem rotation_fairness (rel : Relevance) (t : ℚ)
    (ht : 0 ≤ t) (hA : t < rel.rA) (hB : t < rel.rB) (hC : t < rel.rC)
    (hAB : 2 * rel.rA < 3 * rel.rB) (hBA : 2 * rel.rB < 3 * rel.rA)
    (hAC : 2 * rel.rA < 3 * rel.rC) (hCA : 2 * rel.rC < 3 * rel.rA)
    (hBC : 2 * rel.rB < 3 * rel.rC) (hCB : 2 * rel.rC < 3 * rel.rB) :
    ((rotationRun1 rel).1 ≠ (rotationRun2 rel).1 ∧
      (rotationRun1 rel).1 ≠ (rotationRun3 rel).1 ∧
      (rotationRun2 rel).1 ≠ (rotationRun3 rel).1) ∧
    ((rotationRun1 rel).2.n = 1 ∧ (rotationRun2 rel).2.n = 2 ∧
      (rotationRun3 rel).2.n = 3) ∧
    (∀ (f : Fragment) (rot : RotationState) (rel2 : Relevance),
      answerPipeline (some f) false rot rel2 = (f, rot)) := by
  have hA0 : 0 < rel.rA := lt_of_le_of_lt ht hA
  have hB0 : 0 < rel.rB := lt_of_le_of_lt ht hB
  have hC0 : 0 < rel.rC := lt_of_le_of_lt ht hC
  refine ⟨?_, ⟨rfl, rfl, rfl⟩, fun f rot rel2 => rfl⟩
  have s0A : fragScore freshRotation rel Fragment.A = rel.rA := by
    simp [fragScore, rotationPenalty, freshRotation]
  have s0B : fragScore freshRotation rel Fragment.B = rel.rB := by
    simp [fragScore, rotationPenalty, freshRotation]
  have s0C : fragScore freshRotation rel Fragment.C = rel.rC := by
    simp [fragScore, rotationPenalty, freshRotation]
  by_cases hc1 : rel.rB ≤ rel.rA ∧ rel.rC ≤ rel.rA
  · -- first generation picks fragment A
    have hsel1 : selectPrimary freshRotation rel = Fragment.A := by
      apply selectPrimary_A
      · rw [s0A, s0B]; exact hc1.1
      · rw [s0A, s0C]; exact hc1.2
    have hf1 : (rotationRun1 rel).1 = Fragment.A := by
      simp only [rotationRun1, generateOnce, hsel1]
    have hrot1 : (rotationRun1 rel).2 = RotationState.mk 1 (some 1) none none := by
      simp only [rotationRun1, generateOnce, hsel1]; try rfl
    have s1A : fragScore (RotationState.mk 1 (some 1) none none) rel Fragment.A
        = rel.rA * (1 / 2) := by
      norm_num [fragScore, rotationPenalty]
    have s1B : fragScore (RotationState.mk 1 (some 1) none none) rel Fragment.B
        = rel.rB := by
      simp [fragScore, rotationPenalty]
    have s1C : fragScore (RotationState.mk 1 (some 1) none none) rel Fragment.C
        = rel.rC := by
      simp [fragScore, rotationPenalty]
    have hn1 : ¬ (fragScore (RotationState.mk 1 (some 1) none none) rel Fragment.B
        ≤ fragScore (RotationState.mk 1 (some 1) none none) rel Fragment.A ∧
        fragScore (RotationState.mk 1 (some 1) none none) rel Fragment.C
        ≤ fragScore (RotationState.mk 1 (some 1) none none) rel Fragment.A) := by
      rw [s1A, s1B]
      rintro ⟨hx, -⟩
      linarith
    by_cases hc2 : rel.rC ≤ rel.rB
    · -- second picks B, third picks C
      have hsel2 : selectPrimary (RotationState.mk 1 (some 1) none none) rel
          = Fragment.B := by
        apply selectPrimary_B _ _ hn1
        rw [s1B, s1C]; exact hc2
      have hf2 : (rotationRun2 rel).1 = Fragment.B := by
        simp only [rotationRun2, hrot1, generateOnce, hsel2]
      have hrot2 : (rotationRun2 rel).2 = RotationState.mk 2 (some 1) (some 2) none := by
        simp only [rotationRun2, hrot1, generateOnce, hsel2]; try rfl
      have s2A : fragScore (RotationState.mk 2 (some 1) (some 2) none) rel Fragment.A
          = rel.rA * (2 / 3) := by
        norm_num [fragScore, rotationPenalty]
      have s2B : fragScore (RotationState.mk 2 (some 1) (some 2) none) rel Fragment.B
          = rel.rB * (1 / 2) := by
        norm_num [fragScore, rotationPenalty]
      have s2C : fragScore (RotationState.mk 2 (some 1) (some 2) none) rel Fragment.C
          = rel.rC := by
        simp [fragScore, rotationPenalty]
      have hsel3 : selectPrimary (RotationState.mk 2 (some 1) (some 2) none) rel
          = Fragment.C := by
        apply selectPrimary_C
        · rw [s2A, s2C]
          rintro ⟨-, hx⟩
          linarith
        · rw [s2B, s2C]
          intro hx
          linarith
      have hf3 : (rotationRun3 rel).1 = Fragment.C := by
        simp only [rotationRun3, hrot2, generateOnce, hsel3]
      rw [hf1, hf2, hf3]
      refine ⟨by simp, by simp, by simp⟩
    · -- second picks C, third picks B
      have hsel2 : selectPrimary (RotationState.mk 1 (some 1) none none) rel
          = Fragment.C := by
        apply selectPrimary_C _ _ hn1
        rw [s1B, s1C]
        exact hc2
      have hf2 : (rotationRun2 rel).1 = Fragment.C := by
        simp only [rotationRun2, hrot1, generateOnce, hsel2]
      have hrot2 : (rotationRun2 rel).2 = RotationState.mk 2 (some 1) none (some 2) := by
        simp only [rotationRun2, hrot1, generateOnce, hsel2]; try rfl
      have s2A : fragScore (RotationState.mk 2 (some 1) none (some 2)) rel Fragment.A
          = rel.rA * (2 / 3) := by
        norm_num [fragScore, rotationPenalty]
      have s2B : fragScore (RotationState.mk 2 (some 1) none (some 2)) rel Fragment.B
          = rel.rB := by
        simp [fragScore, rotationPenalty]
      have s2C : fragScore (RotationState.mk 2 (some 1) none (some 2)) rel Fragment.C
          = rel.rC * (1 / 2) := by
        norm_num [fragScore, rotationPenalty]
      have hsel3 : selectPrimary (RotationState.mk 2 (some 1) none (some 2)) rel
          = Fragment.B := by
        apply selectPrimary_B
        · rw [s2A, s2B]
          rintro ⟨hx, -⟩
          linarith
        · rw [s2B, s2C]
          linarith
      have hf3 : (rotationRun3 rel).1 = Fragment.B := by
        simp only [rotationRun3, hrot2, generateOnce, hsel3]
      rw [hf1, hf2, hf3]
      refine ⟨by simp, by simp, by simp⟩
  · -- first generation does not pick A
    have hn0 : ¬ (fragScore freshRotation rel Fragment.B
        ≤ fragScore freshRotation rel Fragment.A ∧
        fragScore freshRotation rel Fragment.C
        ≤ fragScore freshRotation rel Fragment.A) := by
      rw [s0A, s0B, s0C]
      exact hc1
    by_cases hc2 : rel.rC ≤ rel.rB
    · -- first generation picks B
      have hsel1 : selectPrimary freshRotation rel = Fragment.B := by
        apply selectPrimary_B _ _ hn0
        rw [s0B, s0C]; exact hc2
      have hf1 : (rotationRun1 rel).1 = Fragment.B := by
        simp only [rotationRun1, generateOnce, hsel1]
      have hrot1 : (rotationRun1 rel).2 = RotationState.mk 1 none (some 1) none := by
        simp only [rotationRun1, generateOnce, hsel1]; try rfl
      have s1A : fragScore (RotationState.mk 1 none (some 1) none) rel Fragment.A
          = rel.rA := by
        simp [fragScore, rotationPenalty]
      have s1B : fragScore (RotationState.mk 1 none (some 1) none) rel Fragment.B
          = rel.rB * (1 / 2) := by
        norm_num [fragScore, rotationPenalty]
      have s1C : fragScore (RotationState.mk 1 none (some 1) none) rel Fragment.C
          = rel.rC := by
        simp [fragScore, rotationPenalty]
      by_cases hca : rel.rC ≤ rel.rA
      · -- second picks A, third picks C
        have hsel2 : selectPrimary (RotationState.mk 1 none (some 1) none) rel
            = Fragment.A := by
          apply selectPrimary_A
          · rw [s1A, s1B]; linarith
          · rw [s1A, s1C]; exact hca
        have hf2 : (rotationRun2 rel).1 = Fragment.A := by
          simp only [rotationRun2, hrot1, generateOnce, hsel2]
        have hrot2 : (rotationRun2 rel).2 = RotationState.mk 2 (some 2) (some 1) none := by
          simp only [rotationRun2, hrot1, generateOnce, hsel2]; try rfl
        have s2A : fragScore (RotationState.mk 2 (some 2) (some 1) none) rel Fragment.A
            = rel.rA * (1 / 2) := by
          norm_num [fragScore, rotationPenalty]
        have s2B : fragScore (RotationState.mk 2 (some 2) (some 1) none) rel Fragment.B
            = rel.rB * (2 / 3) := by
          norm_num [fragScore, rotationPenalty]
        have s2C : fragScore (RotationState.mk 2 (some 2) (some 1) none) rel Fragment.C
            = rel.rC := by
          simp [fragScore, rotationPenalty]
        have hsel3 : selectPrimary (RotationState.mk 2 (some 2) (some 1) none) rel
            = Fragment.C := by
          apply selectPrimary_C
          · rw [s2A, s2C]
            rintro ⟨-, hx⟩
            linarith
          · rw [s2B, s2C]
            intro hx
            linarith
        have hf3 : (rotationRun3 rel).1 = Fragment.C := by
          simp only [rotationRun3, hrot2, generateOnce, hsel3]
        rw [hf1, hf2, hf3]
        refine ⟨by simp, by simp, by simp⟩
      · -- second picks C, third picks A
        have hsel2 : selectPrimary (RotationState.mk 1 none (some 1) none) rel
            = Fragment.C := by
          apply selectPrimary_C
          · rw [s1A, s1C]
            rintro ⟨-, hx⟩
            exact hca hx
          · rw [s1B, s1C]
            intro hx
            push_neg at hca
            linarith
        have hf2 : (rotationRun2 rel).1 = Fragment.C := by
          simp only [rotationRun2, hrot1, generateOnce, hsel2]
        have hrot2 : (rotationRun2 rel).2 = RotationState.mk 2 none (some 1) (some 2) := by
          simp only [rotationRun2, hrot1, generateOnce, hsel2]; try rfl
        have s2A : fragScore (RotationState.mk 2 none (some 1) (some 2)) rel Fragment.A
            = rel.rA := by
          simp [fragScore, rotationPenalty]
        have s2B : fragScore (RotationState.mk 2 none (some 1) (some 2)) rel Fragment.B
            = rel.rB * (2 / 3) := by
          norm_num [fragScore, rotationPenalty]
        have s2C : fragScore (RotationState.mk 2 none (some 1) (some 2)) rel Fragment.C
            = rel.rC * (1 / 2) := by
          norm_num [fragScore, rotationPenalty]
        have hsel3 : selectPrimary (RotationState.mk 2 none (some 1) (some 2)) rel
            = Fragment.A := by
          apply selectPrimary_A
          · rw [s2A, s2B]; linarith
          · rw [s2A, s2C]; linarith
        have hf3 : (rotationRun3 rel).1 = Fragment.A := by
          simp only [rotationRun3, hrot2, generateOnce, hsel3]
        rw [hf1, hf2, hf3]
        refine ⟨by simp, by simp, by simp⟩
    · -- first generation picks C
      have hsel1 : selectPrimary freshRotation rel = Fragment.C := by
        apply selectPrimary_C _ _ hn0
        rw [s0B, s0C]
        exact hc2
      have hf1 : (rotationRun1 rel).1 = Fragment.C := by
        simp only [rotationRun1, generateOnce, hsel1]
      have hrot1 : (rotationRun1 rel).2 = RotationState.mk 1 none none (some 1) := by
        simp only [rotationRun1, generateOnce, hsel1]; try rfl
      have s1A : fragScore (RotationState.mk 1 none none (some 1)) rel Fragment.A
          = rel.rA := by
        simp [fragScore, rotationPenalty]
      have s1B : fragScore (RotationState.mk 1 none none (some 1)) rel Fragment.B
          = rel.rB := by
        simp [fragScore, rotationPenalty]
      have s1C : fragScore (RotationState.mk 1 none none (some 1)) rel Fragment.C
          = rel.rC * (1 / 2) := by
        norm_num [fragScore, rotationPenalty]
      by_cases hba : rel.rB ≤ rel.rA
      · -- second picks A, third picks B
        have hsel2 : selectPrimary (RotationState.mk 1 none none (some 1)) rel
            = Fragment.A := by
          apply selectPrimary_A
          · rw [s1A, s1B]; exact hba
          · rw [s1A, s1C]; linarith
        have hf2 : (rotationRun2 rel).1 = Fragment.A := by
          simp only [rotationRun2, hrot1, generateOnce, hsel2]
        have hrot2 : (rotationRun2 rel).2 = RotationState.mk 2 (some 2) none (some 1) := by
          simp only [rotationRun2, hrot1, generateOnce, hsel2]; try rfl
        have s2A : fragScore (RotationState.mk 2 (some 2) none (some 1)) rel Fragment.A
            = rel.rA * (1 / 2) := by
          norm_num [fragScore, rotationPenalty]
        have s2B : fragScore (RotationState.mk 2 (some 2) none (some 1)) rel Fragment.B
            = rel.rB := by
          simp [fragScore, rotationPenalty]
        have s2C : fragScore (RotationState.mk 2 (some 2) none (some 1)) rel Fragment.C
            = rel.rC * (2 / 3) := by
          norm_num [fragScore, rotationPenalty]
        have hsel3 : selectPrimary (RotationState.mk 2 (some 2) none (some 1)) rel
            = Fragment.B := by
          apply selectPrimary_B
          · rw [s2A, s2B]
            rintro ⟨hx, -⟩
            linarith
          · rw [s2B, s2C]
            linarith
        have hf3 : (rotationRun3 rel).1 = Fragment.B := by
          simp only [rotationRun3, hrot2, generateOnce, hsel3]
        rw [hf1, hf2, hf3]
        refine ⟨by simp, by simp, by simp⟩
      · -- second picks B, third picks A
        have hsel2 : selectPrimary (RotationState.mk 1 none none (some 1)) rel
            = Fragment.B := by
          apply selectPrimary_B
          · rw [s1A, s1B]
            rintro ⟨hx, -⟩
            exact hba hx
          · rw [s1B, s1C]
            push_neg at hba
            linarith
        have hf2 : (rotationRun2 rel).1 = Fragment.B := by
          simp only [rotationRun2, hrot1, generateOnce, hsel2]
        have hrot2 : (rotationRun2 rel).2 = RotationState.mk 2 none (some 2) (some 1) := by
          simp only [rotationRun2, hrot1, generateOnce, hsel2]; try rfl
        have s2A : fragScore (RotationState.mk 2 none (some 2) (some 1)) rel Fragment.A
            = rel.rA := by
          simp [fragScore, rotationPenalty]
        have s2B : fragScore (RotationState.mk 2 none (some 2) (some 1)) rel Fragment.B
            = rel.rB * (1 / 2) := by
          norm_num [fragScore, rotationPenalty]
        have s2C : fragScore (RotationState.mk 2 none (some 2) (some 1)) rel Fragment.C
            = rel.rC * (2 / 3) := by
          norm_num [fragScore, rotationPenalty]
        have hsel3 : selectPrimary (RotationState.mk 2 none (some 2) (some 1)) rel
            = Fragment.A := by
          apply selectPrimary_A
          · rw [s2A, s2B]; linarith
          · rw [s2A, s2C]; linarith
        have hf3 : (rotationRun3 rel).1 = Fragment.A := by
          simp only [rotationRun3, hrot2, generateOnce, hsel3]
        rw [hf1, hf2, hf3]
        refine ⟨by simp, by simp, by simp⟩

/-- Equal relevance scores for the three fragments: the extreme case of
no fragment dominating. -/
def exRel : Relevance := { rA := 1, rB := 1, rC := 1 }

/-- Witness for C6 at three equally relevant fragments above threshold
one half: the three consecutive generations pick three distinct
fragments and the counter advances once per generation. -/
theorem rotation_fairness_witness :
    ((0 : ℚ) ≤ 1 / 2 ∧ (1 / 2 : ℚ) < exRel.rA ∧ (1 / 2 : ℚ) < exRel.rB ∧
      (1 / 2 : ℚ) < exRel.rC ∧ 2 * exRel.rA < 3 * exRel.rB ∧
      2 * exRel.rB < 3 * exRel.rA ∧ 2 * exRel.rA < 3 * exRel.rC ∧
      2 * exRel.rC < 3 * exRel.rA ∧ 2 * exRel.rB < 3 * exRel.rC ∧
      2 * exRel.rC < 3 * exRel.rB) ∧
    (((rotationRun1 exRel).1 ≠ (rotationRun2 exRel).1 ∧
      (rotationRun1 exRel).1 ≠ (rotationRun3 exRel).1 ∧
      (rotationRun2 exRel).1 ≠ (rotationRun3 exRel).1) ∧
    ((rotationRun1 exRel).2.n = 1 ∧ (rotationRun2 exRel).2.n = 2 ∧
      (rotationRun3 exRel).2.n = 3) ∧
    (∀ (f : Fragment) (rot : RotationState) (rel2 : Relevance),
      answerPipeline (some f) false rot rel2 = (f, rot))) :=
  ⟨⟨by norm_num, by norm_num [exRel], by norm_num [exRel], by norm_num [exRel],
      by norm_num [exRel], by norm_num [exRel], by norm_num [exRel],
      by norm_num [exRel], by norm_num [exRel], by norm_num [exRel]⟩,
    rotation_fairness exRel (1 / 2) (by norm_num) (by norm_num [exRel])
      (by norm_num [exRel]) (by norm_num [exRel]) (by norm_num [exRel])
      (by norm_num [exRel]) (by norm_num [exRel]) (by norm_num [exRel])
      (by norm_num [exRel]) (by norm_num [exRel])⟩

end Readily
